import Mathlib

/-!
Verification model of the gold/silver dashboard backend.

The Python sources are embedded shallowly:

* `float` prices are modelled as exact rationals (`ℚ`); the one genuinely
  irrational operation, `numpy.sqrt` inside `np.std`, is abstracted as an
  explicit function argument `sqrtQ : ℚ → ℚ`, so that every definition stays
  computable and theorems quantify over every model of the square root.
* `numpy` division of a float by zero does not raise: it yields `inf`,
  `-inf` or `nan` with a warning.  The type `PyFloat` records these values
  where the source can produce them (`DataAnalyzerAgent._determine_trend`,
  `analyze_trend`).
* Python dicts whose key sets vary between branches are modelled as
  structures with `Option` fields: a `none` field is an absent key.
* Database access (`get_monthly_data`) is modelled as filtering and sorting
  an explicit list of rows; wall-clock timestamps are abstract integers and
  the `datetime.now()` fields of result dicts are not modelled.
-/

/-- Python `round(x, 2)` on our rational model of floats: round to two
decimal places.  (Python uses banker's rounding at exact ties; no theorem
below depends on tie behaviour.) -/
def round2 (q : ℚ) : ℚ :=
  (round (q * 100) : ℚ) / 100

/-- `np.mean` of a list of prices (only ever applied to non-empty lists by
the source's guarded branches). -/
def meanQ (l : List ℚ) : ℚ :=
  l.sum / (l.length : ℚ)

/-- `np.max` over a non-empty price array (`0` as the unused empty default). -/
def listMax : List ℚ → ℚ
  | [] => 0
  | h :: t => t.foldl max h

/-- `np.min` over a non-empty price array (`0` as the unused empty default). -/
def listMin : List ℚ → ℚ
  | [] => 0
  | h :: t => t.foldl min h

/-- `np.median`: sort, take the middle element (odd length) or the average of
the two middle elements (even length). -/
def medianQ (l : List ℚ) : ℚ :=
  let s := List.insertionSort (· ≤ ·) l
  let n := s.length
  if n % 2 = 1 then s.getD (n / 2) 0
  else (s.getD (n / 2 - 1) 0 + s.getD (n / 2) 0) / 2

/-- Population variance, the square of `np.std` (numpy's default `ddof = 0`):
mean of the squared deviations from the mean. -/
def popVariance (l : List ℚ) : ℚ :=
  meanQ (l.map (fun x => (x - meanQ l) ^ 2))

/-- One row of the `price_records` table (`models/database.py`).
`platinum_price` is a nullable column, hence an `Option`.  Timestamps are
abstract integers ordered like datetimes. -/
structure PriceRecord where
  timestamp : Int
  gold_price : ℚ
  silver_price : ℚ
  platinum_price : Option ℚ
  source : String
  deriving DecidableEq

/-- The `ORDER BY timestamp ASC` of `get_monthly_data`: a stable sort of the
stored rows by timestamp (ties keep storage order, as SQL leaves tie order
to the engine and the row store realises insertion order). -/
def sortByTs (l : List PriceRecord) : List PriceRecord :=
  List.insertionSort (fun a b => a.timestamp ≤ b.timestamp) l

/-- `DataAnalyzerAgent.get_monthly_data`: rows with `timestamp >= cutoff`
(the instant thirty days ago), ordered ascending by timestamp.  The store is
the list of rows in storage (insertion) order. -/
def get_monthly_data (cutoff : Int) (store : List PriceRecord) : List PriceRecord :=
  sortByTs (store.filter (fun r => cutoff ≤ r.timestamp))

/-- One per-metal statistics block of `calculate_statistics`. -/
structure MetalStats where
  avg : ℚ
  max : ℚ
  min : ℚ
  std : ℚ
  median : ℚ
  deriving DecidableEq

/-- The literal all-zero block (`{"avg": 0, "max": 0, "min": 0, "std": 0,
"median": 0}`) used for an absent metal and in `_empty_statistics`. -/
def zeroStats : MetalStats :=
  { avg := 0, max := 0, min := 0, std := 0, median := 0 }

/-- The five statistics the source computes identically for each metal's
price array: rounded mean, max, min, standard deviation and median. -/
def metalStats (sqrtQ : ℚ → ℚ) (prices : List ℚ) : MetalStats :=
  { avg := round2 (meanQ prices)
    max := round2 (listMax prices)
    min := round2 (listMin prices)
    std := round2 (sqrtQ (popVariance prices))
    median := round2 (medianQ prices) }

/-- The dict returned by `calculate_statistics`.  `platinum` is an `Option`
because `_empty_statistics` has no `"platinum"` key at all, while the
non-empty branch always has one.  The `datetime.now()` timestamp field is
not modelled. -/
structure StatsResult where
  gold : MetalStats
  silver : MetalStats
  platinum : Option MetalStats
  period : String
  data_points : Nat
  deriving DecidableEq

/-- `DataAnalyzerAgent._empty_statistics`: zero blocks for gold and silver,
`period = "monthly"`, `data_points = 0` — and no platinum key. -/
def empty_statistics : StatsResult :=
  { gold := zeroStats
    silver := zeroStats
    platinum := none
    period := "monthly"
    data_points := 0 }

/-- `DataAnalyzerAgent.calculate_statistics` on an already-fetched window
(`records = get_monthly_data ...`).  `sqrtQ` models `numpy`'s square root. -/
def calculate_statistics (sqrtQ : ℚ → ℚ) (records : List PriceRecord) : StatsResult :=
  if records.isEmpty then empty_statistics
  else
    let gold_prices := records.map (fun r => r.gold_price)
    let silver_prices := records.map (fun r => r.silver_price)
    let platinum_prices := records.filterMap (fun r => r.platinum_price)
    { gold := metalStats sqrtQ gold_prices
      silver := metalStats sqrtQ silver_prices
      platinum := some (if 0 < platinum_prices.length then metalStats sqrtQ platinum_prices
        else zeroStats)
      period := "monthly"
      data_points := records.length }

/-- Value of a numpy float computation that may divide by zero: a finite
rational, a signed infinity, or `nan`. -/
inductive PyFloat where
  | val : ℚ → PyFloat
  | posInf : PyFloat
  | negInf : PyFloat
  | nan : PyFloat
  deriving DecidableEq

/-- `(second - first) / first * 100` under numpy float semantics: when the
divisor `first` is zero numpy emits a warning and produces `inf`, `-inf` or
`nan` according to the sign of the numerator (there is no guard in the
source), and multiplication by `100` preserves those values. -/
def change_percent_py (first second : ℚ) : PyFloat :=
  if first = 0 then
    if 0 < second - first then PyFloat.posInf
    else if second - first < 0 then PyFloat.negInf
    else PyFloat.nan
  else PyFloat.val ((second - first) / first * 100)

/-- `x > c` on a numpy float: comparisons with `nan` are false. -/
def pyGt (x : PyFloat) (c : ℚ) : Bool :=
  match x with
  | PyFloat.val q => c < q
  | PyFloat.posInf => true
  | PyFloat.negInf => false
  | PyFloat.nan => false

/-- `x < c` on a numpy float: comparisons with `nan` are false. -/
def pyLt (x : PyFloat) (c : ℚ) : Bool :=
  match x with
  | PyFloat.val q => q < c
  | PyFloat.posInf => false
  | PyFloat.negInf => true
  | PyFloat.nan => false

/-- `round(x, 2)` on a numpy float: infinities and `nan` are fixed points. -/
def pyRound2 (x : PyFloat) : PyFloat :=
  match x with
  | PyFloat.val q => PyFloat.val (round2 q)
  | y => y

/-- `DataAnalyzerAgent._determine_trend`: compute the percentage change and
compare with the ±2 thresholds.  The strings are the source's labels for
rising / falling / flat. -/
def determine_trend (first_value second_value : ℚ) : String :=
  let cp := change_percent_py first_value second_value
  if pyGt cp 2 then "上升"
  else if pyLt cp (-2) then "下降"
  else "持平"

/-- The dict returned by `analyze_trend`.  The change-percent fields are
`Option`s because the `len(records) < 2` branch returns a dict without those
keys. -/
structure TrendResult where
  gold_trend : String
  silver_trend : String
  gold_change_percent : Option PyFloat
  silver_change_percent : Option PyFloat
  deriving DecidableEq

/-- `DataAnalyzerAgent.analyze_trend` on an already-fetched window: under two
records it reports `insufficient_data` (and no change-percent keys);
otherwise it splits at `len // 2` and compares the half means. -/
def analyze_trend (records : List PriceRecord) : TrendResult :=
  if records.length < 2 then
    { gold_trend := "insufficient_data"
      silver_trend := "insufficient_data"
      gold_change_percent := none
      silver_change_percent := none }
  else
    let mid_point := records.length / 2
    let gold_prices := records.map (fun r => r.gold_price)
    let silver_prices := records.map (fun r => r.silver_price)
    let gold_first_half := meanQ (gold_prices.take mid_point)
    let gold_second_half := meanQ (gold_prices.drop mid_point)
    let silver_first_half := meanQ (silver_prices.take mid_point)
    let silver_second_half := meanQ (silver_prices.drop mid_point)
    { gold_trend := determine_trend gold_first_half gold_second_half
      silver_trend := determine_trend silver_first_half silver_second_half
      gold_change_percent :=
        some (pyRound2 (change_percent_py gold_first_half gold_second_half))
      silver_change_percent :=
        some (pyRound2 (change_percent_py silver_first_half silver_second_half)) }

/-- One entry of the list returned by `detect_anomalies`. -/
structure AnomalyRecord where
  type : String
  timestamp : Int
  price : ℚ
  deviation : ℚ
  deriving DecidableEq

/-- The gold entry `detect_anomalies` appends for record `r` when the gold
condition fires. -/
def goldAnomaly (gold_mean gold_std : ℚ) (r : PriceRecord) : AnomalyRecord :=
  { type := "gold"
    timestamp := r.timestamp
    price := r.gold_price
    deviation := |r.gold_price - gold_mean| / gold_std }

/-- The silver entry `detect_anomalies` appends for record `r` when the
silver condition fires. -/
def silverAnomaly (silver_mean silver_std : ℚ) (r : PriceRecord) : AnomalyRecord :=
  { type := "silver"
    timestamp := r.timestamp
    price := r.silver_price
    deviation := |r.silver_price - silver_mean| / silver_std }

/-- `DataAnalyzerAgent.detect_anomalies` on an already-fetched window: under
ten records return `[]`; otherwise scan the records in order, appending a
gold entry and then a silver entry for each record whose price deviates from
the full-window mean by more than three full-window standard deviations. -/
def detect_anomalies (sqrtQ : ℚ → ℚ) (records : List PriceRecord) : List AnomalyRecord :=
  if records.length < 10 then []
  else
    let gold_prices := records.map (fun r => r.gold_price)
    let silver_prices := records.map (fun r => r.silver_price)
    let gold_mean := meanQ gold_prices
    let gold_std := sqrtQ (popVariance gold_prices)
    let silver_mean := meanQ silver_prices
    let silver_std := sqrtQ (popVariance silver_prices)
    records.flatMap (fun r =>
      (if 3 * gold_std < |r.gold_price - gold_mean| then [goldAnomaly gold_mean gold_std r]
        else []) ++
      (if 3 * silver_std < |r.silver_price - silver_mean| then
        [silverAnomaly silver_mean silver_std r]
        else []))

/-- Outcome of one pipeline stage's coroutine, as `execute_pipeline` sees
it: a truthy return value, a falsy return value (`None` or an empty dict),
or an exception carrying a message. -/
inductive StageOutcome where
  | ok : StageOutcome
  | falsy : StageOutcome
  | err : String → StageOutcome
  deriving DecidableEq

/-- Whether a stage outcome is a raised exception. -/
def StageOutcome.isErr : StageOutcome → Bool
  | StageOutcome.err _ => true
  | _ => false

/-- The `result` dict returned by `AgentCoordinator.execute_pipeline`: the
success flag, the accumulated error list, and which keys of
`result["data"]` were set.  The `datetime.now()` timestamp is not
modelled. -/
structure PipelineResult where
  success : Bool
  errors : List String
  has_prices : Bool
  has_analysis : Bool
  has_ai_analysis : Bool
  deriving DecidableEq

/-- `AgentCoordinator.execute_pipeline`, as a function of the outcomes of
its three stage calls.  The whole body runs inside one `try`: collection
returning falsy appends `數據採集失敗` and returns early with `success =
False`; analysis or AI returning falsy appends its message and continues;
any raised exception jumps to the `except` handler, which appends
`流水線執行異常: ...` and returns with `result["success"]` still `False`,
since `result["success"] = True` is only executed after all three steps. -/
def execute_pipeline (collect analyze ai : StageOutcome) : PipelineResult :=
  match collect with
  | StageOutcome.err e =>
    { success := false, errors := ["流水線執行異常: " ++ e]
      has_prices := false, has_analysis := false, has_ai_analysis := false }
  | StageOutcome.falsy =>
    { success := false, errors := ["數據採集失敗"]
      has_prices := false, has_analysis := false, has_ai_analysis := false }
  | StageOutcome.ok =>
    match analyze with
    | StageOutcome.err e =>
      { success := false, errors := ["流水線執行異常: " ++ e]
        has_prices := true, has_analysis := false, has_ai_analysis := false }
    | a =>
      let analysis_errors := if a = StageOutcome.falsy then ["數據分析失敗"] else []
      let got_analysis := a = StageOutcome.ok
      match ai with
      | StageOutcome.err e =>
        { success := false, errors := analysis_errors ++ ["流水線執行異常: " ++ e]
          has_prices := true, has_analysis := got_analysis, has_ai_analysis := false }
      | StageOutcome.falsy =>
        { success := true, errors := analysis_errors ++ ["AI分析失敗"]
          has_prices := true, has_analysis := got_analysis, has_ai_analysis := false }
      | StageOutcome.ok =>
        { success := true, errors := analysis_errors
          has_prices := true, has_analysis := got_analysis, has_ai_analysis := true }

/-- The `current_data` dict handed to `AIAnalyzerAgent._mock_analysis`; the
source reads `gold_price` and `silver_price` with `.get(..., 0)`, so the
keys may be absent. -/
structure CurrentData where
  gold_price : Option ℚ
  silver_price : Option ℚ
  deriving DecidableEq

/-- The four narrative sections produced by the AI analyzer. -/
structure AnalysisSections where
  market_analysis : String
  trend_prediction : String
  investment_advice : String
  risk_warning : String
  deriving DecidableEq

/-- `AIAnalyzerAgent._mock_analysis`, the deterministic local fallback.
`fmt` models Python's float-to-string formatting inside the f-strings; the
body is pure string construction from `current_data`, `statistics` and
`trend` — it reads no clock and draws no randomness. -/
def mock_analysis (fmt : ℚ → String) (current_data : CurrentData)
    (statistics : StatsResult) (trend : TrendResult) : AnalysisSections :=
  let gold_price := current_data.gold_price.getD 0
  let gold_avg := statistics.gold.avg
  let gold_trend := trend.gold_trend
  let silver_price := current_data.silver_price.getD 0
  let silver_avg := statistics.silver.avg
  let silver_trend := trend.silver_trend
  { market_analysis :=
      "\n當前金價為 " ++ fmt gold_price ++ " TWD/錢，" ++
        (if gold_avg < gold_price then "高於" else "低於") ++ "月平均 " ++
        fmt gold_avg ++ " TWD/錢。\n當前銀價為 " ++ fmt silver_price ++
        " TWD/錢，" ++ (if silver_avg < silver_price then "高於" else "低於") ++
        "月平均 " ++ fmt silver_avg ++ " TWD/錢。\n市場整體呈現" ++
        (if gold_trend = "上升" then "偏多"
          else if gold_trend = "下降" then "偏空" else "震盪") ++ "格局。\n"
    trend_prediction :=
      "\n基於過去30天的數據分析，金價呈現" ++ gold_trend ++ "趨勢，銀價呈現" ++
        silver_trend ++ "趨勢。\n預計短期內金價將在 " ++ fmt statistics.gold.min ++
        "-" ++ fmt statistics.gold.max ++ " 區間波動。\n銀價則可能在 " ++
        fmt statistics.silver.min ++ "-" ++ fmt statistics.silver.max ++
        " 範圍內整理。\n"
    investment_advice :=
      "\n保守型投資者：建議觀望為主，等待價格回落至月平均以下再考慮分批買入。\n" ++
        "穩健型投資者：可在當前價位小量建倉，並設定止損點。\n" ++
        "積極型投資者：可根據短期趨勢進行波段操作，但需控制倉位。\n"
    risk_warning :=
      "\n1. 國際金價波動可能影響台灣市場\n2. 匯率變動風險需要關注\n" ++
        "3. 當前價格波動標準差為 " ++ fmt statistics.gold.std ++ "，屬於" ++
        (if (200 : ℚ) < statistics.gold.std then "高波動" else "正常波動") ++
        "\n4. 建議分散投資，不要過度集中於單一貴金屬\n" }

/-- The `price_data` dict built by `DataCollectorAgent.collect_prices`: it
has `timestamp`, `gold_price`, `silver_price` and `source` keys and no
platinum key at all. -/
structure CollectedPrices where
  timestamp : Int
  gold_price : ℚ
  silver_price : ℚ
  source : String
  deriving DecidableEq

/-- `DataCollectorAgent.collect_prices` as a function of the fetched
international gold/silver quotes and the Bank-of-Taiwan gold quote:
`if bot_gold:` prefers the bank quote when it is truthy (present and
non-zero); if either final price is `None` the collection fails, else the
payload is assembled — without any platinum price. -/
def collect_prices (international_gold international_silver bot_gold : Option ℚ)
    (now : Int) : Option CollectedPrices :=
  let gold_price :=
    match bot_gold with
    | some b => if b ≠ 0 then some b else international_gold
    | none => international_gold
  match gold_price, international_silver with
  | some g, some s =>
    some { timestamp := now, gold_price := g, silver_price := s,
            source := "Yahoo Finance / Taiwan Bank" }
  | _, _ => none

/-- `DataCollectorAgent.save_to_database`: the `PriceRecord` constructor is
called with only `timestamp`, `gold_price`, `silver_price` and `source`, so
the nullable `platinum_price` column keeps its default `NULL`. -/
def save_to_database (price_data : CollectedPrices) : PriceRecord :=
  { timestamp := price_data.timestamp
    gold_price := price_data.gold_price
    silver_price := price_data.silver_price
    platinum_price := none
    source := price_data.source }

/-- Observable scheduling events of one pipeline cycle, tagged with a run
identifier: entering `execute_pipeline`, the three database commits
(`save_to_database`, `save_statistics`, `save_analysis`), and returning. -/
inductive PipelineEvent where
  | cycleStart : Nat → PipelineEvent
  | writeObservation : Nat → PipelineEvent
  | writeStatistics : Nat → PipelineEvent
  | writeSummary : Nat → PipelineEvent
  | cycleEnd : Nat → PipelineEvent
  deriving DecidableEq, BEq

/-- The event sequence of one successful cycle of `execute_pipeline` for run
`i`.  Between consecutive events the coroutine suspends at `await` points
(the HTTP fetches inside collection, the Gemini call inside summarization),
where the asyncio loop is free to run another task. -/
def cycleTrace (i : Nat) : List PipelineEvent :=
  [PipelineEvent.cycleStart i, PipelineEvent.writeObservation i,
    PipelineEvent.writeStatistics i, PipelineEvent.writeSummary i,
    PipelineEvent.cycleEnd i]

/-- `Interleaving l r t`: trace `t` is an order-preserving merge of the two
tasks' event sequences `l` and `r`.  Neither `AgentCoordinator` nor
`routes.trigger_collection` acquires any lock around `execute_pipeline`
(`AgentCoordinator` holds no `asyncio.Lock` and the route calls
`coordinator.execute_pipeline` directly), so every interleaving is an
admissible schedule of two concurrent cycles. -/
inductive Interleaving : List PipelineEvent → List PipelineEvent → List PipelineEvent → Prop where
  | nil : Interleaving [] [] []
  | left {x l r t} : Interleaving l r t → Interleaving (x :: l) r (x :: t)
  | right {x l r t} : Interleaving l r t → Interleaving l (x :: r) (x :: t)

/-- A trace keeps cycles 0 and 1 serialized when one of them ends before the
other starts. -/
def serializedCycles (t : List PipelineEvent) : Bool :=
  t.findIdx (· == PipelineEvent.cycleEnd 0) < t.findIdx (· == PipelineEvent.cycleStart 1) ||
    t.findIdx (· == PipelineEvent.cycleEnd 1) < t.findIdx (· == PipelineEvent.cycleStart 0)

/-- A schedule in which run 1 collects and writes its observation while run
0 is between its observation write and its statistics write. -/
def overlappingTrace : List PipelineEvent :=
  [PipelineEvent.cycleStart 0, PipelineEvent.writeObservation 0,
    PipelineEvent.cycleStart 1, PipelineEvent.writeObservation 1,
    PipelineEvent.writeStatistics 0, PipelineEvent.writeStatistics 1,
    PipelineEvent.writeSummary 0, PipelineEvent.cycleEnd 0,
    PipelineEvent.writeSummary 1, PipelineEvent.cycleEnd 1]

/-- Shorthand for a stored observation with no platinum price. -/
def obs (ts : Int) (g s : ℚ) : PriceRecord :=
  { timestamp := ts, gold_price := g, silver_price := s, platinum_price := none,
    source := "s" }

/-- Timestamp comparison is total on records. -/
instance : IsTotal PriceRecord (fun a b => a.timestamp ≤ b.timestamp) :=
  ⟨fun a b => Int.le_total a.timestamp b.timestamp⟩

/-- Timestamp comparison is transitive on records. -/
instance : IsTrans PriceRecord (fun a b => a.timestamp ≤ b.timestamp) :=
  ⟨fun _ _ _ hab hbc => le_trans hab hbc⟩

/-- C1 (counterexample): a failure *raised* by the analysis stage does not
leave `success` true — with collection succeeding and the analysis stage
raising, the cycle returns `success = false` (the exception is caught by the
surrounding `try`, appended to the error list, and `result["success"] =
True` is never reached). -/
theorem execute_pipeline_raised_analysis_failure_flips_success :
    (execute_pipeline StageOutcome.ok (StageOutcome.err "analysis boom")
        StageOutcome.ok).success = false ∧
    "流水線執行異常: analysis boom" ∈
      (execute_pipeline StageOutcome.ok (StageOutcome.err "analysis boom")
        StageOutcome.ok).errors := by
  exact ⟨rfl, by simp [execute_pipeline]⟩

/-- C1 (amended): the returned `success` flag is true iff the collection
stage succeeded AND neither the analysis stage nor the summarization stage
raised an exception; failures *reported* by analysis or summarization (falsy
return values) are appended to the error list while the cycle still
completes with `success = true`. -/
theorem execute_pipeline_success_characterization (c a s : StageOutcome) :
    ((execute_pipeline c a s).success = true ↔
      (c = StageOutcome.ok ∧ a.isErr = false ∧ s.isErr = false)) ∧
    (c = StageOutcome.ok → a = StageOutcome.falsy →
      "數據分析失敗" ∈ (execute_pipeline c a s).errors) ∧
    (c = StageOutcome.ok → s = StageOutcome.falsy → a.isErr = false →
      "AI分析失敗" ∈ (execute_pipeline c a s).errors) := by
  cases c <;> cases a <;> cases s <;>
    simp [execute_pipeline, StageOutcome.isErr]

/-- C1 (witness): with collection succeeding and both later stages reporting
falsy failures, the cycle returns `success = true` and both stage error
messages are in the error list. -/
theorem execute_pipeline_success_characterization_witness :
    (execute_pipeline StageOutcome.ok StageOutcome.falsy StageOutcome.falsy).success
        = true ∧
    "數據分析失敗" ∈
      (execute_pipeline StageOutcome.ok StageOutcome.falsy StageOutcome.falsy).errors ∧
    "AI分析失敗" ∈
      (execute_pipeline StageOutcome.ok StageOutcome.falsy StageOutcome.falsy).errors := by
  refine ⟨?_, ?_, ?_⟩
  · exact (execute_pipeline_success_characterization StageOutcome.ok StageOutcome.falsy
      StageOutcome.falsy).1.mpr ⟨rfl, rfl, rfl⟩
  · exact (execute_pipeline_success_characterization StageOutcome.ok StageOutcome.falsy
      StageOutcome.falsy).2.1 rfl rfl
  · exact (execute_pipeline_success_characterization StageOutcome.ok StageOutcome.falsy
      StageOutcome.falsy).2.2 rfl rfl rfl

/-- C2 (code bug, evaluated at the failing input): on the two-observation
window with gold prices `[0, 5]`, the first-half gold mean is `0`, yet
`analyze_trend` performs the unguarded division (numpy yields `+inf`) and
returns direction `上升` with change percent `inf` — not
`insufficient_data` with change percent `0` as the spec requires. -/
theorem analyze_trend_zero_first_half_mean_unguarded :
    meanQ (([obs 0 0 10, obs 1 5 10].map (fun r => r.gold_price)).take 1) = 0 ∧
    (analyze_trend [obs 0 0 10, obs 1 5 10]).gold_trend = "上升" ∧
    (analyze_trend [obs 0 0 10, obs 1 5 10]).gold_change_percent
      = some PyFloat.posInf := by
  refine ⟨by norm_num [obs, meanQ], ?_, ?_⟩ <;>
    norm_num [analyze_trend, determine_trend, change_percent_py, pyGt, pyLt,
      pyRound2, meanQ, obs]

/-- C3 (counterexample): on a single-observation window `analyze_trend` does
return `insufficient_data` directions, but the returned dict has no
change-percent keys at all, so the change percent is absent rather than
`0`. -/
theorem analyze_trend_single_obs_omits_change_percent :
    (analyze_trend [obs 0 9500 100]).gold_trend = "insufficient_data" ∧
    (analyze_trend [obs 0 9500 100]).gold_change_percent = none ∧
    (analyze_trend [obs 0 9500 100]).silver_change_percent = none ∧
    (analyze_trend [obs 0 9500 100]).gold_change_percent ≠ some (PyFloat.val 0) := by
  refine ⟨?_, ?_, ?_, ?_⟩ <;> simp [analyze_trend]

/-- C3 (amended): on any window of fewer than two observations,
`analyze_trend` returns `insufficient_data` for both gold and silver,
omits both change-percent keys, and does not raise. -/
theorem analyze_trend_insufficient_data (records : List PriceRecord)
    (h : records.length < 2) :
    analyze_trend records =
      { gold_trend := "insufficient_data", silver_trend := "insufficient_data",
        gold_change_percent := none, silver_change_percent := none } := by
  simp [analyze_trend, h]

/-- C3 (witness): the amended statement at the one-observation window. -/
theorem analyze_trend_insufficient_data_witness :
    [obs 0 1 1].length < 2 ∧
    analyze_trend [obs 0 1 1] =
      { gold_trend := "insufficient_data", silver_trend := "insufficient_data",
        gold_change_percent := none, silver_change_percent := none } :=
  ⟨by simp, analyze_trend_insufficient_data [obs 0 1 1] (by simp)⟩

/-- C4 (counterexample): the statistics of the empty window contain no
platinum block at all — the `"platinum"` key is absent from
`_empty_statistics`, not a zero-valued block. -/
theorem calculate_statistics_empty_omits_platinum :
    (calculate_statistics (fun _ => 0) []).platinum = none ∧
    (calculate_statistics (fun _ => 0) []).platinum ≠ some zeroStats := by
  exact ⟨rfl, by simp [calculate_statistics, empty_statistics]⟩

/-- C4 (amended): the empty window yields a defined result, not an error:
all-zero gold and silver blocks with `data_points = 0` and `period =
"monthly"` — but the platinum block is omitted entirely. -/
theorem calculate_statistics_empty_window (sqrtQ : ℚ → ℚ) :
    calculate_statistics sqrtQ [] =
      { gold := zeroStats, silver := zeroStats, platinum := none,
        period := "monthly", data_points := 0 } :=
  rfl

/-- C7: the deterministic local fallback `_mock_analysis` is a pure function
of the current data, the statistics and the trend (for any model `fmt` of
Python float formatting): equal inputs give byte-identical section texts.
The transcription of the source body shows it reads no clock and no
randomness. -/
theorem mock_analysis_deterministic (fmt : ℚ → String)
    (c₁ c₂ : CurrentData) (s₁ s₂ : StatsResult) (t₁ t₂ : TrendResult)
    (hc : c₁ = c₂) (hs : s₁ = s₂) (ht : t₁ = t₂) :
    mock_analysis fmt c₁ s₁ t₁ = mock_analysis fmt c₂ s₂ t₂ := by
  rw [hc, hs, ht]

/-- C7 (witness): the determinism theorem applied at a concrete context. -/
theorem mock_analysis_deterministic_witness :
    mock_analysis (fun _ => "p") { gold_price := some 9500, silver_price := some 100 }
        empty_statistics
        { gold_trend := "持平", silver_trend := "持平",
          gold_change_percent := none, silver_change_percent := none } =
      mock_analysis (fun _ => "p") { gold_price := some 9500, silver_price := some 100 }
        empty_statistics
        { gold_trend := "持平", silver_trend := "持平",
          gold_change_percent := none, silver_change_percent := none } :=
  mock_analysis_deterministic (fun _ => "p") _ _ _ _ _ _ rfl rfl rfl

/-- C10: every record persisted by the collection stage has an absent
(`NULL`) platinum price — the collector's payload has no platinum key and
`save_to_database` constructs the row without one — and any non-empty
analysis window consisting of such records reports platinum statistics via
the zero-valued absent-metal block. -/
theorem collector_platinum_absent :
    (∀ price_data, (save_to_database price_data).platinum_price = none) ∧
    (∀ (sqrtQ : ℚ → ℚ) (w : List PriceRecord), w ≠ [] →
      (∀ r ∈ w, r.platinum_price = none) →
      (calculate_statistics sqrtQ w).platinum = some zeroStats) := by
  constructor
  · intro price_data
    rfl
  · intro sqrtQ w hne hnone
    have hfm : w.filterMap (fun r => r.platinum_price) = [] :=
      List.filterMap_eq_nil_iff.mpr hnone
    have hempty : w.isEmpty = false := by
      cases w with
      | nil => exact absurd rfl hne
      | cons h t => rfl
    simp [calculate_statistics, hempty, hfm]

/-- C10 (witness): the persisted record of a concrete collected payload has
no platinum price, and a concrete one-record window of collector output
reports the zero-valued platinum block. -/
theorem collector_platinum_absent_witness :
    (save_to_database ⟨0, 9500, 100, "Yahoo Finance / Taiwan Bank"⟩).platinum_price
        = none ∧
    (calculate_statistics (fun _ => 0) [obs 0 9500 100]).platinum = some zeroStats := by
  constructor
  · exact collector_platinum_absent.1 _
  · exact collector_platinum_absent.2 (fun _ => 0) [obs 0 9500 100] (by simp)
      (by intro r hr; simp at hr; simp [hr, obs])

/-- C9 (code bug, evaluated on the scheduling model): because no lock or
queue guards `execute_pipeline` (the coordinator holds no synchronization
object and `trigger_collection` calls it directly), every order-preserving
merge of two cycles' event sequences is an admissible asyncio schedule — in
particular a schedule in which cycle 1 starts and writes its observation
while cycle 0 is still mid-flight, so the two cycles are not serialized. -/
theorem execute_pipeline_overlapping_schedule_admissible :
    Interleaving (cycleTrace 0) (cycleTrace 1) overlappingTrace ∧
    serializedCycles overlappingTrace = false := by
  constructor
  · show Interleaving
      [PipelineEvent.cycleStart 0, PipelineEvent.writeObservation 0,
        PipelineEvent.writeStatistics 0, PipelineEvent.writeSummary 0,
        PipelineEvent.cycleEnd 0]
      [PipelineEvent.cycleStart 1, PipelineEvent.writeObservation 1,
        PipelineEvent.writeStatistics 1, PipelineEvent.writeSummary 1,
        PipelineEvent.cycleEnd 1]
      overlappingTrace
    exact Interleaving.left (Interleaving.left (Interleaving.right
      (Interleaving.right (Interleaving.left (Interleaving.right
        (Interleaving.left (Interleaving.left (Interleaving.right
          (Interleaving.right Interleaving.nil)))))))))
  · decide

/-- Membership in a conditional singleton list. -/
theorem mem_ite_singleton {c : Prop} [Decidable c] {a x : AnomalyRecord} :
    (a ∈ if c then [x] else ([] : List AnomalyRecord)) ↔ c ∧ a = x := by
  split <;> simp_all

/-- C5: the anomaly detector returns the empty list on windows of fewer
than ten observations, and on larger windows it flags exactly the
observations whose price deviates from the full-window mean of that metal
by more than three full-window standard deviations, with each flagged
record carrying `deviation = |price − mean| / std` (relative to any model
`sqrtQ` of numpy's square root, which determines the standard deviation as
the root of the population variance). -/
theorem detect_anomalies_spec (sqrtQ : ℚ → ℚ) (records : List PriceRecord) :
    (records.length < 10 → detect_anomalies sqrtQ records = []) ∧
    (10 ≤ records.length → ∀ a,
      a ∈ detect_anomalies sqrtQ records ↔
        ∃ r, r ∈ records ∧
          ((3 * sqrtQ (popVariance (records.map (fun x => x.gold_price))) <
              |r.gold_price - meanQ (records.map (fun x => x.gold_price))| ∧
            a = { type := "gold", timestamp := r.timestamp, price := r.gold_price,
                  deviation := |r.gold_price - meanQ (records.map (fun x => x.gold_price))| /
                    sqrtQ (popVariance (records.map (fun x => x.gold_price))) }) ∨
          (3 * sqrtQ (popVariance (records.map (fun x => x.silver_price))) <
              |r.silver_price - meanQ (records.map (fun x => x.silver_price))| ∧
            a = { type := "silver", timestamp := r.timestamp, price := r.silver_price,
                  deviation := |r.silver_price - meanQ (records.map (fun x => x.silver_price))| /
                    sqrtQ (popVariance (records.map (fun x => x.silver_price))) }))) := by
  constructor
  · intro h
    simp [detect_anomalies, h]
  · intro h a
    have h' : ¬ records.length < 10 := by omega
    simp only [detect_anomalies, if_neg h', List.mem_flatMap, List.mem_append,
      mem_ite_singleton, goldAnomaly, silverAnomaly]

/-- C5 (witness): a one-observation window yields no anomalies, and in a
concrete ten-observation window with nine gold prices `0` and one `10`
(standard-deviation model mapping everything to `0`), the outlier is
flagged as a gold anomaly. -/
theorem detect_anomalies_spec_witness :
    detect_anomalies (fun _ => 0) [obs 0 1 1] = [] ∧
    ({ type := "gold", timestamp := 9, price := 10, deviation := 0 } : AnomalyRecord) ∈
      detect_anomalies (fun _ => 0)
        [obs 0 0 5, obs 1 0 5, obs 2 0 5, obs 3 0 5, obs 4 0 5,
          obs 5 0 5, obs 6 0 5, obs 7 0 5, obs 8 0 5, obs 9 10 5] := by
  constructor
  · exact (detect_anomalies_spec (fun _ => 0) [obs 0 1 1]).1 (by simp)
  · refine ((detect_anomalies_spec (fun _ => 0) _).2 (by simp) _).mpr ?_
    refine ⟨obs 9 10 5, by simp, Or.inl ⟨?_, ?_⟩⟩
    · norm_num [obs, meanQ]
    · refine AnomalyRecord.mk.injEq .. ▸ ?_
      norm_num [obs, meanQ]

/-- If a sum of squared deviations vanishes, every element equals the
reference point. -/
theorem eq_of_sum_sq_eq_zero {m : ℚ} :
    ∀ {l : List ℚ}, (l.map (fun x => (x - m) ^ 2)).sum = 0 → ∀ x ∈ l, x = m := by
  intro l
  induction l with
  | nil => simp
  | cons h t ih =>
    intro hs x hx
    simp only [List.map_cons, List.sum_cons] at hs
    have h1 : (0 : ℚ) ≤ (h - m) ^ 2 := sq_nonneg _
    have h2 : (0 : ℚ) ≤ (t.map (fun x => (x - m) ^ 2)).sum := by
      apply List.sum_nonneg
      intro y hy
      obtain ⟨z, _, rfl⟩ := List.mem_map.mp hy
      exact sq_nonneg _
    have hh : (h - m) ^ 2 = 0 := by linarith
    have ht : (t.map (fun x => (x - m) ^ 2)).sum = 0 := by linarith
    rcases List.mem_cons.mp hx with rfl | hx2
    · have := pow_eq_zero_iff (n := 2) (by norm_num) |>.mp hh
      linarith [sub_eq_zero.mp this]
    · exact ih ht x hx2

/-- A list whose population variance is zero is constant at its mean. -/
theorem eq_mean_of_popVariance_eq_zero {l : List ℚ} (hv : popVariance l = 0) :
    ∀ x ∈ l, x = meanQ l := by
  cases l with
  | nil => simp
  | cons h t =>
    have hlen : ((h :: t).length : ℚ) ≠ 0 := by
      simp only [List.length_cons]
      push_cast
      positivity
    have hsum : ((h :: t).map (fun x => (x - meanQ (h :: t)) ^ 2)).sum = 0 := by
      have := hv
      rw [popVariance, meanQ, div_eq_zero_iff] at this
      rcases this with h0 | h0
      · simpa using h0
      · rw [List.length_map] at h0
        exact absurd h0 hlen
    exact eq_of_sum_sq_eq_zero hsum

/-- C6: on a window in which a metal's price series has zero standard
deviation (zero population variance, and numpy's `sqrt 0 = 0`), the anomaly
detector flags no observation of that metal: the metal contributes no
anomaly records, and in particular the `deviation` division for that metal
is never reached. -/
theorem detect_anomalies_constant_series_no_flags (sqrtQ : ℚ → ℚ)
    (records : List PriceRecord) (h0 : sqrtQ 0 = 0) :
    (popVariance (records.map (fun r => r.gold_price)) = 0 →
      (detect_anomalies sqrtQ records).filter (fun a => a.type == "gold") = []) ∧
    (popVariance (records.map (fun r => r.silver_price)) = 0 →
      (detect_anomalies sqrtQ records).filter (fun a => a.type == "silver") = []) := by
  by_cases hlen : records.length < 10
  · constructor <;> intro hv <;> simp [detect_anomalies, hlen]
  · constructor <;> intro hv <;> rw [List.filter_eq_nil_iff] <;> intro a ha <;>
      simp only [detect_anomalies, if_neg hlen, List.mem_flatMap, List.mem_append,
        mem_ite_singleton] at ha
    · obtain ⟨r, hr, hcase⟩ := ha
      rcases hcase with ⟨hc, rfl⟩ | ⟨hc, rfl⟩
      · exfalso
        have hconst := eq_mean_of_popVariance_eq_zero hv r.gold_price
          (List.mem_map_of_mem _ hr)
        rw [hv, h0, hconst] at hc
        simp at hc
      · simp [silverAnomaly]
    · obtain ⟨r, hr, hcase⟩ := ha
      rcases hcase with ⟨hc, rfl⟩ | ⟨hc, rfl⟩
      · simp [goldAnomaly]
      · exfalso
        have hconst := eq_mean_of_popVariance_eq_zero hv r.silver_price
          (List.mem_map_of_mem _ hr)
        rw [hv, h0, hconst] at hc
        simp at hc

/-- C6 (witness): on a concrete ten-observation constant window (with the
zero square-root model), the gold variance is zero and no gold anomaly is
emitted. -/
theorem detect_anomalies_constant_series_no_flags_witness :
    popVariance ([obs 0 5 5, obs 1 5 5, obs 2 5 5, obs 3 5 5, obs 4 5 5,
        obs 5 5 5, obs 6 5 5, obs 7 5 5, obs 8 5 5, obs 9 5 5].map
          (fun r => r.gold_price)) = 0 ∧
    (detect_anomalies (fun _ => 0)
        [obs 0 5 5, obs 1 5 5, obs 2 5 5, obs 3 5 5, obs 4 5 5,
          obs 5 5 5, obs 6 5 5, obs 7 5 5, obs 8 5 5, obs 9 5 5]).filter
      (fun a => a.type == "gold") = [] := by
  have hv : popVariance ([obs 0 5 5, obs 1 5 5, obs 2 5 5, obs 3 5 5, obs 4 5 5,
      obs 5 5 5, obs 6 5 5, obs 7 5 5, obs 8 5 5, obs 9 5 5].map
        (fun r => r.gold_price)) = 0 := by
    norm_num [obs, popVariance, meanQ]
  exact ⟨hv, (detect_anomalies_constant_series_no_flags (fun _ => 0) _ rfl).1 hv⟩

/-- The fold seed is below the max fold. -/
theorem le_foldl_max (t : List ℚ) : ∀ b : ℚ, b ≤ t.foldl max b := by
  induction t with
  | nil => intro b; simp
  | cons h t ih =>
    intro b
    simpa using le_trans (le_max_left b h) (ih (max b h))

/-- Every element is below the max fold. -/
theorem mem_le_foldl_max (t : List ℚ) : ∀ (b x : ℚ), x ∈ t → x ≤ t.foldl max b := by
  induction t with
  | nil => simp
  | cons h t ih =>
    intro b x hx
    rcases List.mem_cons.mp hx with rfl | hx2
    · simpa using le_trans (le_max_right b x) (le_foldl_max t (max b x))
    · simpa using ih (max b h) x hx2

/-- The max fold is the seed or one of the elements. -/
theorem foldl_max_mem (t : List ℚ) : ∀ b : ℚ, t.foldl max b ∈ b :: t := by
  induction t with
  | nil => intro b; simp
  | cons h t ih =>
    intro b
    simp only [List.foldl_cons]
    rcases List.mem_cons.mp (ih (max b h)) with heq | hmem
    · rcases max_choice b h with hb | hh
      · rw [heq, hb]; exact List.mem_cons_self _ _
      · rw [heq, hh]; exact List.mem_cons_of_mem _ (List.mem_cons_self _ _)
    · exact List.mem_cons_of_mem _ (List.mem_cons_of_mem _ hmem)

/-- Every element is below `listMax`. -/
theorem le_listMax {l : List ℚ} {x : ℚ} (hx : x ∈ l) : x ≤ listMax l := by
  cases l with
  | nil => cases hx
  | cons h t =>
    rcases List.mem_cons.mp hx with rfl | hx2
    · exact le_foldl_max t x
    · exact mem_le_foldl_max t h x hx2

/-- `listMax` of a non-empty list is one of its elements. -/
theorem listMax_mem {l : List ℚ} (h : l ≠ []) : listMax l ∈ l := by
  cases l with
  | nil => exact absurd rfl h
  | cons a t => exact foldl_max_mem t a

/-- `listMax` only depends on the multiset of elements. -/
theorem listMax_perm {l₁ l₂ : List ℚ} (hp : l₁.Perm l₂) : listMax l₁ = listMax l₂ := by
  cases l₁ with
  | nil =>
    rw [hp.symm.eq_nil.symm]
  | cons a t =>
    have hne₁ : (a :: t) ≠ ([] : List ℚ) := by simp
    have hne₂ : l₂ ≠ [] := by
      intro h
      exact absurd (h ▸ hp).eq_nil hne₁
    exact le_antisymm (le_listMax (hp.mem_iff.mp (listMax_mem hne₁)))
      (le_listMax (hp.symm.mem_iff.mp (listMax_mem hne₂)))

/-- The min fold is below the seed. -/
theorem foldl_min_le (t : List ℚ) : ∀ b : ℚ, t.foldl min b ≤ b := by
  induction t with
  | nil => intro b; simp
  | cons h t ih =>
    intro b
    simpa using le_trans (ih (min b h)) (min_le_left b h)

/-- The min fold is below every element. -/
theorem foldl_min_le_mem (t : List ℚ) : ∀ (b x : ℚ), x ∈ t → t.foldl min b ≤ x := by
  induction t with
  | nil => simp
  | cons h t ih =>
    intro b x hx
    rcases List.mem_cons.mp hx with rfl | hx2
    · simpa using le_trans (foldl_min_le t (min b x)) (min_le_right b x)
    · simpa using ih (min b h) x hx2

/-- The min fold is the seed or one of the elements. -/
theorem foldl_min_mem (t : List ℚ) : ∀ b : ℚ, t.foldl min b ∈ b :: t := by
  induction t with
  | nil => intro b; simp
  | cons h t ih =>
    intro b
    simp only [List.foldl_cons]
    rcases List.mem_cons.mp (ih (min b h)) with heq | hmem
    · rcases min_choice b h with hb | hh
      · rw [heq, hb]; exact List.mem_cons_self _ _
      · rw [heq, hh]; exact List.mem_cons_of_mem _ (List.mem_cons_self _ _)
    · exact List.mem_cons_of_mem _ (List.mem_cons_of_mem _ hmem)

/-- `listMin` is below every element. -/
theorem listMin_le {l : List ℚ} {x : ℚ} (hx : x ∈ l) : listMin l ≤ x := by
  cases l with
  | nil => cases hx
  | cons h t =>
    rcases List.mem_cons.mp hx with rfl | hx2
    · exact foldl_min_le t x
    · exact foldl_min_le_mem t h x hx2

/-- `listMin` of a non-empty list is one of its elements. -/
theorem listMin_mem {l : List ℚ} (h : l ≠ []) : listMin l ∈ l := by
  cases l with
  | nil => exact absurd rfl h
  | cons a t => exact foldl_min_mem t a

/-- `listMin` only depends on the multiset of elements. -/
theorem listMin_perm {l₁ l₂ : List ℚ} (hp : l₁.Perm l₂) : listMin l₁ = listMin l₂ := by
  cases l₁ with
  | nil =>
    rw [hp.symm.eq_nil.symm]
  | cons a t =>
    have hne₁ : (a :: t) ≠ ([] : List ℚ) := by simp
    have hne₂ : l₂ ≠ [] := by
      intro h
      exact absurd (h ▸ hp).eq_nil hne₁
    exact le_antisymm (listMin_le (hp.symm.mem_iff.mp (listMin_mem hne₂)))
      (listMin_le (hp.mem_iff.mp (listMin_mem hne₁)))

/-- The mean only depends on the multiset of elements. -/
theorem meanQ_perm {l₁ l₂ : List ℚ} (hp : l₁.Perm l₂) : meanQ l₁ = meanQ l₂ := by
  rw [meanQ, meanQ, hp.sum_eq, hp.length_eq]

/-- The population variance only depends on the multiset of elements. -/
theorem popVariance_perm {l₁ l₂ : List ℚ} (hp : l₁.Perm l₂) :
    popVariance l₁ = popVariance l₂ := by
  rw [popVariance, popVariance, meanQ_perm hp]
  exact meanQ_perm (hp.map _)

/-- The median only depends on the multiset of elements. -/
theorem medianQ_perm {l₁ l₂ : List ℚ} (hp : l₁.Perm l₂) : medianQ l₁ = medianQ l₂ := by
  have hsorted : List.insertionSort (· ≤ ·) l₁ = List.insertionSort (· ≤ ·) l₂ :=
    List.eq_of_perm_of_sorted
      ((List.perm_insertionSort _ l₁).trans (hp.trans (List.perm_insertionSort _ l₂).symm))
      (List.sorted_insertionSort _ l₁) (List.sorted_insertionSort _ l₂)
  simp only [medianQ, hsorted]

/-- All five per-metal statistics only depend on the multiset of prices. -/
theorem metalStats_perm (sqrtQ : ℚ → ℚ) {p₁ p₂ : List ℚ} (hp : p₁.Perm p₂) :
    metalStats sqrtQ p₁ = metalStats sqrtQ p₂ := by
  simp only [metalStats, meanQ_perm hp, listMax_perm hp, listMin_perm hp,
    popVariance_perm hp, medianQ_perm hp]

/-- `calculate_statistics` only depends on the multiset of window rows. -/
theorem calculate_statistics_perm (sqrtQ : ℚ → ℚ) {w₁ w₂ : List PriceRecord}
    (hp : w₁.Perm w₂) :
    calculate_statistics sqrtQ w₁ = calculate_statistics sqrtQ w₂ := by
  cases w₁ with
  | nil =>
    rw [hp.symm.eq_nil.symm]
  | cons a t =>
    cases w₂ with
    | nil => exact absurd hp.eq_nil (by simp)
    | cons b s =>
      have hg := metalStats_perm sqrtQ (hp.map (fun r => r.gold_price))
      have hsv := metalStats_perm sqrtQ (hp.map (fun r => r.silver_price))
      have hf := hp.filterMap (fun r => r.platinum_price)
      have hfl := hf.length_eq
      have hpm := metalStats_perm sqrtQ hf
      have hl := hp.length_eq
      simp only [calculate_statistics, List.isEmpty_cons, Bool.false_eq_true, if_false,
        hg, hsv, hfl, hpm, hl]

/-- The fetched window is sorted by timestamp. -/
theorem sortByTs_sorted (l : List PriceRecord) :
    (sortByTs l).Sorted (fun a b => a.timestamp ≤ b.timestamp) :=
  List.sorted_insertionSort _ l

/-- Two sorted-by-timestamp permutations of each other with pairwise
distinct timestamps are equal: sorting by timestamp is canonical exactly
when the timestamp key is injective on the window. -/
theorem eq_of_perm_of_sorted_ts :
    ∀ {l₁ l₂ : List PriceRecord}, l₁.Perm l₂ →
      (l₁.map PriceRecord.timestamp).Nodup →
      l₁.Sorted (fun a b => a.timestamp ≤ b.timestamp) →
      l₂.Sorted (fun a b => a.timestamp ≤ b.timestamp) → l₁ = l₂ := by
  intro l₁
  induction l₁ with
  | nil =>
    intro l₂ hp _ _ _
    exact hp.symm.eq_nil.symm
  | cons a t ih =>
    intro l₂ hp hnd hs₁ hs₂
    cases l₂ with
    | nil => exact absurd hp.eq_nil (by simp)
    | cons b s =>
      have hab : a = b := by
        rcases List.mem_cons.mp (hp.mem_iff.mp (List.mem_cons_self a t)) with h | ha3
        · exact h
        · rcases List.mem_cons.mp (hp.symm.mem_iff.mp (List.mem_cons_self b s)) with h | hb2
          · exact h.symm
          · have h1 : a.timestamp ≤ b.timestamp := (List.sorted_cons.mp hs₁).1 b hb2
            have h2 : b.timestamp ≤ a.timestamp := (List.sorted_cons.mp hs₂).1 a ha3
            have hts : a.timestamp = b.timestamp := le_antisymm h1 h2
            have hmem : b.timestamp ∈ t.map PriceRecord.timestamp :=
              List.mem_map_of_mem _ hb2
            rw [← hts] at hmem
            have hnin : a.timestamp ∉ t.map PriceRecord.timestamp :=
              (List.nodup_cons.mp (by simpa using hnd)).1
            exact absurd hmem hnin
      subst hab
      have heq : t = s :=
        ih hp.cons_inv (List.nodup_cons.mp (by simpa using hnd)).2
          (List.sorted_cons.mp hs₁).2 (List.sorted_cons.mp hs₂).2
      rw [heq]

/-- C8 (amended): feeding the same multiset of observations in any storage
order yields identical statistics (unconditionally, since every statistic is
a function of the window's multiset), and identical trend outputs provided
the observations' timestamps are pairwise distinct — with duplicate
timestamps the tie order of the `ORDER BY timestamp` window is
storage-dependent and the half-split trend can differ. -/
theorem analysis_storage_order_invariance (sqrtQ : ℚ → ℚ) (cutoff : Int)
    (store₁ store₂ : List PriceRecord) (hp : store₁.Perm store₂) :
    calculate_statistics sqrtQ (get_monthly_data cutoff store₁) =
      calculate_statistics sqrtQ (get_monthly_data cutoff store₂) ∧
    ((store₁.map PriceRecord.timestamp).Nodup →
      analyze_trend (get_monthly_data cutoff store₁) =
        analyze_trend (get_monthly_data cutoff store₂)) := by
  have hfp : (store₁.filter (fun r => cutoff ≤ r.timestamp)).Perm
      (store₂.filter (fun r => cutoff ≤ r.timestamp)) := hp.filter _
  have hwp : (get_monthly_data cutoff store₁).Perm (get_monthly_data cutoff store₂) :=
    (List.perm_insertionSort _ _).trans (hfp.trans (List.perm_insertionSort _ _).symm)
  refine ⟨calculate_statistics_perm sqrtQ hwp, fun hnd => ?_⟩
  have hnd₁ : ((store₁.filter (fun r => cutoff ≤ r.timestamp)).map
      PriceRecord.timestamp).Nodup :=
    ((List.filter_sublist store₁).map PriceRecord.timestamp).nodup hnd
  have hndw : ((get_monthly_data cutoff store₁).map PriceRecord.timestamp).Nodup :=
    (((List.perm_insertionSort _ _).map PriceRecord.timestamp).nodup_iff).mpr hnd₁
  have heq : get_monthly_data cutoff store₁ = get_monthly_data cutoff store₂ :=
    eq_of_perm_of_sorted_ts hwp hndw (sortByTs_sorted _) (sortByTs_sorted _)
  rw [heq]

/-- C8 (counterexample): two storage orders of the same two observations
sharing one timestamp (gold prices 1 and 3) are a permutation of each other,
yet the trend outputs differ — the tie order decides which price lands in
which half, flipping the gold trend between rising and falling. -/
theorem analysis_tied_timestamps_order_dependent :
    [obs 0 1 10, obs 0 3 10].Perm [obs 0 3 10, obs 0 1 10] ∧
    analyze_trend (get_monthly_data 0 [obs 0 1 10, obs 0 3 10]) ≠
      analyze_trend (get_monthly_data 0 [obs 0 3 10, obs 0 1 10]) := by
  constructor
  · exact List.Perm.swap _ _ _
  · have e1 : (analyze_trend (get_monthly_data 0 [obs 0 1 10, obs 0 3 10])).gold_trend
        = "上升" := by
      norm_num [get_monthly_data, sortByTs, obs, analyze_trend, determine_trend,
        change_percent_py, pyGt, pyLt, meanQ]
    have e2 : (analyze_trend (get_monthly_data 0 [obs 0 3 10, obs 0 1 10])).gold_trend
        = "下降" := by
      norm_num [get_monthly_data, sortByTs, obs, analyze_trend, determine_trend,
        change_percent_py, pyGt, pyLt, meanQ]
    intro h
    rw [h, e2] at e1
    exact absurd e1 (by decide)

/-- C8 (witness): the invariance theorem at a concrete two-observation store
with distinct timestamps, against its reversed storage order. -/
theorem analysis_storage_order_invariance_witness :
    calculate_statistics (fun _ => 0) (get_monthly_data 0 [obs 0 1 1, obs 1 2 2]) =
      calculate_statistics (fun _ => 0) (get_monthly_data 0 [obs 1 2 2, obs 0 1 1]) ∧
    analyze_trend (get_monthly_data 0 [obs 0 1 1, obs 1 2 2]) =
      analyze_trend (get_monthly_data 0 [obs 1 2 2, obs 0 1 1]) := by
  have h := analysis_storage_order_invariance (fun _ => 0) 0
    [obs 0 1 1, obs 1 2 2] [obs 1 2 2, obs 0 1 1] (List.Perm.swap _ _ _)
  exact ⟨h.1, h.2 (by norm_num [obs])⟩
